/-
Verification of the `TargetLayout` component
(`src/packages/web/app/src/components/layouts/target.tsx`).

The component is shallowly embedded: the render function becomes a pure
function from a render state (route parameters, the two urql query results,
the `value` prop) to a render-output tree, and the `useEffect` side effects
become explicit effect computations, with React's dependency-array semantics
modelled for sequences of renders.
-/
import Mathlib

namespace TargetLayoutSpec

/-- `TargetFieldsFragment` as consumed by the component: a target's
URL-safe `cleanId` and display `name`. -/
structure TargetFieldsFragment where
  cleanId : String
  name : String
deriving DecidableEq, Repr

/-- The `targets` connection returned by `TargetsDocument`:
a list of nodes and a `total` count. -/
structure TargetConnection where
  nodes : List TargetFieldsFragment
  total : Nat
deriving DecidableEq, Repr

/-- Access scopes named by the spec: `read`, `registry-read`, `settings`.
The enumeration itself lives in `@/lib/access/target`, outside the provided
sources; these three members are the ones the component uses. -/
inductive TargetAccessScope where
  | Read
  | RegistryRead
  | Settings
deriving DecidableEq, Repr

/-- The actor's membership record (`org.me`): the set of scopes the
actor's role grants, per the spec's data model (AccessScope tags
"checked against the actor's role"). -/
structure MemberFields where
  scopes : List TargetAccessScope
deriving DecidableEq, Repr

/-- `OrganizationFieldsFragment`: display name and the actor's
membership record `me` (absent when the actor is no member). -/
structure OrganizationFieldsFragment where
  name : String
  me : Option MemberFields
deriving DecidableEq, Repr

/-- `ProjectFieldsFragment`: display name and project type tag. -/
structure ProjectFieldsFragment where
  name : String
  type : String
deriving DecidableEq, Repr

/-- Payload of the `TargetsDocument` query (`data.targets`). -/
structure TargetsQueryData where
  targets : TargetConnection
deriving DecidableEq, Repr

/-- Payload of the `ProjectDocument` query. The component reads
`data?.organization.organization` and `data?.project`; both entities may be
absent (resource not found), which we model with `Option`. -/
structure ProjectQueryData where
  organization : Option OrganizationFieldsFragment
  project : Option ProjectFieldsFragment
deriving DecidableEq, Repr

/-- An urql query result as observed by the component:
`{ data, fetching, error }`. Errors are kept abstract as strings. -/
structure QueryState (α : Type) where
  data : Option α
  fetching : Bool
  error : Option String
deriving DecidableEq, Repr

/-- The route selector (`useRouteSelector`): the three route parameters
and the current path `asPath`. -/
structure RouteSelector where
  organizationId : String
  projectId : String
  targetId : String
  asPath : String
deriving DecidableEq, Repr

/-- The tab values of the `TabValue` enum in the source. -/
inductive TabValue where
  | Schema
  | History
  | Operations
  | Laboratory
  | Settings
deriving DecidableEq, Repr

/-- Everything a single render of `TargetLayout` observes: the router,
the two query results and the `value` prop. -/
structure RenderState where
  router : RouteSelector
  targetsQuery : QueryState TargetsQueryData
  projectQuery : QueryState ProjectQueryData
  value : TabValue
deriving DecidableEq, Repr

/-- `const targets = targetsQuery.data?.targets`. -/
def targetsOf (st : RenderState) : Option TargetConnection :=
  st.targetsQuery.data.map TargetsQueryData.targets

/-- `const target = targets?.nodes.find(node => node.cleanId === targetId)`. -/
def targetOf (st : RenderState) : Option TargetFieldsFragment :=
  (targetsOf st).bind fun t =>
    t.nodes.find? fun node => node.cleanId == st.router.targetId

/-- `const org = projectQuery.data?.organization.organization`. -/
def orgOf (st : RenderState) : Option OrganizationFieldsFragment :=
  st.projectQuery.data.bind ProjectQueryData.organization

/-- `const project = projectQuery.data?.project`. -/
def projectOf (st : RenderState) : Option ProjectFieldsFragment :=
  st.projectQuery.data.bind ProjectQueryData.project

/-- `const me = org?.me`. -/
def meOf (st : RenderState) : Option MemberFields :=
  (orgOf st).bind OrganizationFieldsFragment.me

/-- A JavaScript line terminator, which `.` in a regular expression does
not match: LF, CR, LINE SEPARATOR, PARAGRAPH SEPARATOR. -/
def isLineTerminator (c : Char) : Bool :=
  c = '\n' || c = '\r' || c.val = 0x2028 || c.val = 0x2029

/-- `s.replace(/#.*/, '')` on the character list: the first match of the
regular expression starts at the first `'#'` and extends greedily over
characters that are not line terminators; the match is replaced by the
empty string, everything after it is kept. -/
def replaceFragmentList : List Char → List Char
  | [] => []
  | c :: cs =>
    if c = '#' then cs.dropWhile (fun d => !isLineTerminator d)
    else c :: replaceFragmentList cs

/-- `router.asPath.replace(/#.*/, '')`. -/
def replaceFragment (s : String) : String :=
  ⟨replaceFragmentList s.data⟩

/-- The spec's words for the fragment stripping ("every suffix beginning
with `'#'` is removed"): keep only the characters before the first `'#'`.
Declared to be compared with `replaceFragment`, the embedding of the code. -/
def specStripFragmentList : List Char → List Char
  | [] => []
  | c :: cs => if c = '#' then [] else c :: specStripFragmentList cs

/-- The spec's fragment stripping on strings. -/
def specStripFragment (s : String) : String :=
  ⟨specStripFragmentList s.data⟩

/-- The first `useEffect`: when the targets query is not fetching and no
target matched the route's `targetId`, push `('/404', asPath with the
fragment replaced)`. Returns the arguments of the `router.push` call, or
`none` when the effect body does nothing. -/
def notFoundTargetEffect (st : RenderState) : Option (String × String) :=
  if !st.targetsQuery.fetching && (targetOf st).isNone then
    some ("/404", replaceFragment st.router.asPath)
  else none

/-- The second `useEffect`: same redirect when the project query is not
fetching and the project is undefined. -/
def notFoundProjectEffect (st : RenderState) : Option (String × String) :=
  if !st.projectQuery.fetching && (projectOf st).isNone then
    some ("/404", replaceFragment st.router.asPath)
  else none

/-- Modelled from the spec: `canAccessTarget(scope, actor)` from
`@/lib/access/target` is not among the provided sources. Per the spec
(§4.2, §6) it returns whether the actor's membership record holds the
given scope; with no membership record there is no granted scope. -/
def canAccessTarget (scope : TargetAccessScope) (member : Option MemberFields) : Bool :=
  match member with
  | none => false
  | some m => m.scopes.contains scope

/-- Modelled from the spec: `useTargetAccess({scope, member, redirect})`
from `@/lib/access/target` is not among the provided sources. Per the spec
(§4.2) it "redirects away entirely if the actor lacks basic read access to
the target"; it reports whether the redirect side effect fires. -/
def useTargetAccessRedirects (scope : TargetAccessScope)
    (member : Option MemberFields) (redirect : Bool) : Bool :=
  redirect && !canAccessTarget scope member

/-- A navigation side effect issued by the component during one render. -/
inductive Effect where
  | push (route : String) (asPath : String)
  | accessRedirect
deriving DecidableEq, Repr

/-- All navigation side effects of one render, in hook order: the
target-not-found effect, the project-not-found effect, then the
`useTargetAccess` access check (called with `scope: Read`, `member: me`,
`redirect: true`). These hooks run before the early returns, so the list
does not depend on which branch the render output takes. -/
def renderEffects (st : RenderState) : List Effect :=
  (match notFoundTargetEffect st with
   | some (r, p) => [Effect.push r p]
   | none => []) ++
  (match notFoundProjectEffect st with
   | some (r, p) => [Effect.push r p]
   | none => []) ++
  (if useTargetAccessRedirects TargetAccessScope.Read (meOf st) true then
    [Effect.accessRedirect]
   else [])

/-- The dependency array of the first `useEffect`:
`[router, target, targetsQuery.fetching]`. -/
structure TargetEffectDeps where
  router : RouteSelector
  target : Option TargetFieldsFragment
  fetching : Bool
deriving DecidableEq, Repr

/-- The dependencies of the target-not-found effect at a render state. -/
def targetEffectDeps (st : RenderState) : TargetEffectDeps :=
  ⟨st.router, targetOf st, st.targetsQuery.fetching⟩

/-- React's dependency-array semantics: the effect body runs after the
first render, and after a later render exactly when its dependencies
differ from the previous render's. -/
def targetEffectRuns : Option RenderState → RenderState → Bool
  | none, _ => true
  | some prev, st => decide (targetEffectDeps prev ≠ targetEffectDeps st)

/-- The `router.push` calls the target-not-found effect emits over a
sequence of renders, given the previous render (if any). -/
def emittedTargetRedirectsAux :
    Option RenderState → List RenderState → List (String × String)
  | _, [] => []
  | prev, st :: rest =>
    (if targetEffectRuns prev st then (notFoundTargetEffect st).toList else [])
      ++ emittedTargetRedirectsAux (some st) rest

/-- The `router.push` calls the target-not-found effect emits over a
sequence of renders starting from a fresh mount. -/
def emittedTargetRedirects (states : List RenderState) : List (String × String) :=
  emittedTargetRedirectsAux none states

/-- The breadcrumb rendered in the `SubHeader` when both `org` and
`project` are defined: each display name with the href of its link. -/
structure Breadcrumb where
  orgName : String
  orgHref : String
  projectName : String
  projectHref : String
deriving DecidableEq, Repr

/-- One entry of the target-switcher dropdown: the target's display name
and the href of its link. -/
structure DropdownItem where
  name : String
  href : String
deriving DecidableEq, Repr

/-- One tab trigger: its `TabValue`, its link href, and its label text. -/
structure TabTrigger where
  value : TabValue
  href : String
  label : String
deriving DecidableEq, Repr

/-- The props passed to the caller-supplied `children` render function.
At runtime the component passes through whatever it resolved, so each
field is an `Option`, although the TypeScript prop type declares all three
non-optional. -/
structure ChildrenProps where
  target : Option TargetFieldsFragment
  project : Option ProjectFieldsFragment
  organization : Option OrganizationFieldsFragment
deriving DecidableEq, Repr

/-- The main layout subtree (the JSX after the two early returns). It has
exactly one content region: the single `Tabs.Content` element, whose value
is the `value` prop and whose body is the result of `children`. -/
structure MainLayout (α : Type) where
  breadcrumb : Option Breadcrumb
  targetName : Option String
  dropdown : Option (List DropdownItem)
  projectType : Option String
  tabs : List TabTrigger
  contentValue : TabValue
  contentBody : α
deriving Repr

/-- What one render of `TargetLayout` returns: the spinner, the
`QueryError` display (with the error passed to it), or the main layout. -/
inductive RenderOutput (α : Type) where
  | spinner
  | queryError (error : Option String)
  | layout (main : MainLayout α)
deriving Repr

/-- The target-switcher dropdown: rendered only when `targets` is defined
and `targets.total > 1`; its items are the nodes whose `cleanId` differs
from the route's `targetId` (the JSX `node.cleanId !== targetId && …`
renders nothing for the current target), linking to
`/{orgId}/{projectId}/{node.cleanId}`. -/
def dropdownOf (st : RenderState) : Option (List DropdownItem) :=
  match targetsOf st with
  | none => none
  | some targets =>
    if targets.total > 1 then
      some (targets.nodes.filterMap fun node =>
        if node.cleanId = st.router.targetId then none
        else some ⟨node.name,
          "/" ++ st.router.organizationId ++ "/" ++ st.router.projectId
            ++ "/" ++ node.cleanId⟩)
    else none

/-- The `Tabs.List` contents: Schema, History, Operations and Laboratory
each gated by `canAccessSchema`, Settings gated by `canAccessSettings`,
with the hrefs built from the route parameters. -/
def tabTriggers (canAccessSchema canAccessSettings : Bool)
    (orgId projectId targetId : String) : List TabTrigger :=
  (if canAccessSchema then
    [⟨TabValue.Schema, "/" ++ orgId ++ "/" ++ projectId ++ "/" ++ targetId,
      "Schema"⟩] else []) ++
  (if canAccessSchema then
    [⟨TabValue.History,
      "/" ++ orgId ++ "/" ++ projectId ++ "/" ++ targetId ++ "/history",
      "History"⟩] else []) ++
  (if canAccessSchema then
    [⟨TabValue.Operations,
      "/" ++ orgId ++ "/" ++ projectId ++ "/" ++ targetId ++ "/operations",
      "Operations"⟩] else []) ++
  (if canAccessSchema then
    [⟨TabValue.Laboratory,
      "/" ++ orgId ++ "/" ++ projectId ++ "/" ++ targetId ++ "/laboratory",
      "Laboratory"⟩] else []) ++
  (if canAccessSettings then
    [⟨TabValue.Settings,
      "/" ++ orgId ++ "/" ++ projectId ++ "/" ++ targetId ++ "/settings",
      "Settings"⟩] else [])

/-- The render function of `TargetLayout`, parametrised by the
caller-supplied `children` render function. Mirrors the source:
spinner while either query is fetching; otherwise `QueryError` with
`projectQuery.error || targetsQuery.error` when either query errored;
otherwise the main layout. -/
def renderTargetLayout (children : ChildrenProps → α) (st : RenderState) :
    RenderOutput α :=
  if st.projectQuery.fetching || st.targetsQuery.fetching then
    RenderOutput.spinner
  else if st.projectQuery.error.isSome || st.targetsQuery.error.isSome then
    RenderOutput.queryError
      (st.projectQuery.error.orElse fun _ => st.targetsQuery.error)
  else
    RenderOutput.layout
      { breadcrumb :=
          match orgOf st, projectOf st with
          | some o, some p =>
            some ⟨o.name, "/" ++ st.router.organizationId,
                  p.name, "/" ++ st.router.organizationId ++ "/"
                    ++ st.router.projectId⟩
          | _, _ => none
        targetName := (targetOf st).map TargetFieldsFragment.name
        dropdown := dropdownOf st
        projectType := (projectOf st).map ProjectFieldsFragment.type
        tabs := tabTriggers
          (canAccessTarget TargetAccessScope.RegistryRead (meOf st))
          (canAccessTarget TargetAccessScope.Settings (meOf st))
          st.router.organizationId st.router.projectId st.router.targetId
        contentValue := st.value
        contentBody := children ⟨targetOf st, projectOf st, orgOf st⟩ }

/-- The tab triggers of a render output (empty outside the layout branch). -/
def tabsOf : RenderOutput α → List TabTrigger
  | RenderOutput.layout m => m.tabs
  | _ => []

/-- The breadcrumb of a render output, when the layout was rendered. -/
def breadcrumbOf : RenderOutput α → Option Breadcrumb
  | RenderOutput.layout m => m.breadcrumb
  | _ => none

/-- The dropdown of a render output, when the layout was rendered. -/
def layoutDropdownOf : RenderOutput α → Option (List DropdownItem)
  | RenderOutput.layout m => m.dropdown
  | _ => none

/-- The single content region of a render output: its tab value and body,
when the layout was rendered. -/
def contentOf : RenderOutput α → Option (TabValue × α)
  | RenderOutput.layout m => some (m.contentValue, m.contentBody)
  | _ => none

/-- Whether the render output is the `QueryError` display. -/
def isQueryErrorOutput : RenderOutput α → Bool
  | RenderOutput.queryError _ => true
  | _ => false

/-- Whether the render output is the main layout. -/
def isLayoutOutput : RenderOutput α → Bool
  | RenderOutput.layout _ => true
  | _ => false

/-! ## Helper lemmas -/

/-- `find?` misses when no node's `cleanId` equals the route's target id. -/
lemma find?_eq_none_of_all_ne (nodes : List TargetFieldsFragment) (tid : String)
    (h : (nodes.all fun node => node.cleanId != tid) = true) :
    (nodes.find? fun node => node.cleanId == tid) = none := by
  rw [List.find?_eq_none]
  intro x hx
  have hbne := List.all_eq_true.mp h x hx
  simpa using hbne

/-- An effect never re-runs while its dependencies are unchanged. -/
lemma targetEffectRuns_self (st : RenderState) :
    targetEffectRuns (some st) st = false := by
  simp [targetEffectRuns]

/-- Repeated renders of one and the same state emit no further redirects
after the first render. -/
lemma emittedTargetRedirectsAux_replicate (st : RenderState) (n : Nat) :
    emittedTargetRedirectsAux (some st) (List.replicate n st) = [] := by
  induction n with
  | zero => rfl
  | succ n ih =>
    rw [List.replicate_succ]
    simp [emittedTargetRedirectsAux, targetEffectRuns_self, ih]

/-- When the targets query has settled with a list containing no match for
the route's target id, the resolved `target` is `undefined`. -/
lemma targetOf_eq_none (st : RenderState) (d : TargetsQueryData)
    (hd : st.targetsQuery.data = some d)
    (hmiss : (d.targets.nodes.all fun node =>
      node.cleanId != st.router.targetId) = true) :
    targetOf st = none := by
  simp only [targetOf, targetsOf, hd, Option.map_some', Option.bind_some]
  exact find?_eq_none_of_all_ne _ _ hmiss

/-! ## Claims -/

/-- **C1.** For every route target identifier matching no `cleanId` in the
fetched target list (the empty list included), once the targets fetch
reports not-fetching the component pushes a redirect to `/404` (with the
fragment stripped from the current path), and over any number of repeated
renders of that fetch-settled state this redirect is emitted exactly once:
the emitted-redirect list of the whole render sequence is the one-element
list of that push. -/
theorem c1_not_found_redirect_once (st : RenderState) (d : TargetsQueryData)
    (n : Nat)
    (hf : st.targetsQuery.fetching = false)
    (hd : st.targetsQuery.data = some d)
    (hmiss : (d.targets.nodes.all fun node =>
      node.cleanId != st.router.targetId) = true) :
    emittedTargetRedirects (List.replicate (n + 1) st) =
      [("/404", replaceFragment st.router.asPath)] := by
  have htarget : targetOf st = none := targetOf_eq_none st d hd hmiss
  have heff : notFoundTargetEffect st =
      some ("/404", replaceFragment st.router.asPath) := by
    simp [notFoundTargetEffect, hf, htarget]
  rw [List.replicate_succ]
  simp [emittedTargetRedirects, emittedTargetRedirectsAux, targetEffectRuns,
    heff, emittedTargetRedirectsAux_replicate]

/-- A route whose target id matches nothing (the fetched list is empty). -/
def c1State : RenderState :=
  ⟨⟨"acme", "api", "prod", "/acme/api/prod"⟩,
   ⟨some ⟨⟨[], 0⟩⟩, false, none⟩,
   ⟨none, false, none⟩,
   TabValue.Schema⟩

/-- Witness for C1 at a concrete settled state rendered three times. -/
theorem c1_not_found_redirect_once_witness :
    emittedTargetRedirects (List.replicate 3 c1State) =
      [("/404", "/acme/api/prod")] :=
  c1_not_found_redirect_once c1State ⟨⟨[], 0⟩⟩ 2 rfl rfl rfl

/-- A state in which the targets query has reported an error while the
project query is still in flight. -/
def c5State : RenderState :=
  ⟨⟨"acme", "api", "prod", "/acme/api/prod"⟩,
   ⟨none, false, some "targets failed"⟩,
   ⟨none, true, none⟩,
   TabValue.Schema⟩

/-- **C5, counterexample.** The claim "for every render state in which
either fetch has reported an error, the component renders an error
display" fails: at `c5State` the targets fetch has reported an error, yet
the component renders the spinner, not the error display. -/
theorem c5_error_display_counterexample :
    c5State.targetsQuery.error.isSome = true ∧
    renderTargetLayout (fun _ => true) c5State = RenderOutput.spinner ∧
    isQueryErrorOutput (renderTargetLayout (fun _ => true) c5State) = false :=
  ⟨rfl, rfl, rfl⟩

/-- **C5, amended.** While either fetch is in flight the component renders
the spinner; and when neither fetch is in flight and either fetch has
reported an error, it renders the error display (with
`projectQuery.error || targetsQuery.error`) instead of the main layout. -/
theorem c5_loading_then_error_display {α : Type} (f : ChildrenProps → α)
    (st₁ st₂ : RenderState)
    (h₁ : st₁.projectQuery.fetching = true ∨ st₁.targetsQuery.fetching = true)
    (h₂ : st₂.projectQuery.fetching = false)
    (h₃ : st₂.targetsQuery.fetching = false)
    (h₄ : st₂.projectQuery.error.isSome = true ∨
      st₂.targetsQuery.error.isSome = true) :
    renderTargetLayout f st₁ = RenderOutput.spinner ∧
    renderTargetLayout f st₂ = RenderOutput.queryError
      (st₂.projectQuery.error.orElse fun _ => st₂.targetsQuery.error) := by
  constructor
  · rcases h₁ with h | h <;> simp [renderTargetLayout, h]
  · rcases h₄ with h | h <;> simp [renderTargetLayout, h₂, h₃, h]

/-- A state with both queries settled and the project query errored. -/
def c5ErrState : RenderState :=
  ⟨⟨"acme", "api", "prod", "/acme/api/prod"⟩,
   ⟨none, false, none⟩,
   ⟨none, false, some "project failed"⟩,
   TabValue.Schema⟩

/-- Witness for the amended C5 at concrete states. -/
theorem c5_loading_then_error_display_witness :
    renderTargetLayout (fun _ => true) c5State = RenderOutput.spinner ∧
    renderTargetLayout (fun _ => true) c5ErrState =
      RenderOutput.queryError (some "project failed") :=
  c5_loading_then_error_display (fun _ => true) c5State c5ErrState
    (Or.inl rfl) rfl rfl (Or.inl rfl)

/-- **C9.** Loading takes precedence over error: while one fetch is in
flight the spinner is rendered even though the other fetch has already
reported an error; and when both fetches have settled with errors, the
error display shows the project fetch's error, not the targets fetch's. -/
theorem c9_loading_precedence_project_error_first {α : Type}
    (f : ChildrenProps → α) (st₁ st₂ : RenderState) (e₁ e₂ : String)
    (h₁ : st₁.projectQuery.fetching = true ∨ st₁.targetsQuery.fetching = true)
    (h₂ : st₁.projectQuery.error.isSome = true ∨
      st₁.targetsQuery.error.isSome = true)
    (h₃ : st₂.projectQuery.fetching = false)
    (h₄ : st₂.targetsQuery.fetching = false)
    (h₅ : st₂.projectQuery.error = some e₁)
    (h₆ : st₂.targetsQuery.error = some e₂) :
    renderTargetLayout f st₁ = RenderOutput.spinner ∧
    renderTargetLayout f st₂ = RenderOutput.queryError (some e₁) := by
  constructor
  · rcases h₁ with h | h <;> simp [renderTargetLayout, h]
  · simp [renderTargetLayout, h₃, h₄, h₅, Option.orElse]

/-- A state with both queries settled and both errored. -/
def c9BothErrState : RenderState :=
  ⟨⟨"acme", "api", "prod", "/acme/api/prod"⟩,
   ⟨none, false, some "targets failed"⟩,
   ⟨none, false, some "project failed"⟩,
   TabValue.Schema⟩

/-- Witness for C9 at concrete states. -/
theorem c9_loading_precedence_project_error_first_witness :
    renderTargetLayout (fun _ => true) c5State = RenderOutput.spinner ∧
    renderTargetLayout (fun _ => true) c9BothErrState =
      RenderOutput.queryError (some "project failed") :=
  c9_loading_precedence_project_error_first (fun _ => true) c5State
    c9BothErrState "project failed" "targets failed"
    (Or.inl rfl) (Or.inr rfl) rfl rfl rfl rfl

/-- Dropping while a predicate holds of every element drops everything. -/
lemma dropWhile_eq_nil_of_all (p : Char → Bool) (l : List Char)
    (h : ∀ c ∈ l, p c = true) : l.dropWhile p = [] := by
  induction l with
  | nil => rfl
  | cons c cs ih =>
    rw [List.dropWhile_cons]
    simp only [h c (List.mem_cons_self c cs), if_true]
    exact ih fun d hd => h d (List.mem_cons_of_mem c hd)

/-- On character lists free of line terminators, the regex replacement
agrees with the spec's "remove every suffix beginning with `'#'`". -/
lemma replaceFragmentList_eq_spec (l : List Char)
    (h : ∀ c ∈ l, isLineTerminator c = false) :
    replaceFragmentList l = specStripFragmentList l := by
  induction l with
  | nil => rfl
  | cons c cs ih =>
    simp only [replaceFragmentList, specStripFragmentList]
    by_cases hc : c = '#'
    · simp only [hc, if_true]
      exact dropWhile_eq_nil_of_all _ cs fun d hd => by
        simp [h d (List.mem_cons_of_mem c hd)]
    · simp only [hc, if_false]
      rw [ih fun d hd => h d (List.mem_cons_of_mem c hd)]

/-- A character list without `'#'` is left unchanged by the replacement. -/
lemma replaceFragmentList_eq_self (l : List Char)
    (h : ∀ c ∈ l, c ≠ '#') : replaceFragmentList l = l := by
  induction l with
  | nil => rfl
  | cons c cs ih =>
    simp only [replaceFragmentList]
    rw [if_neg (h c (List.mem_cons_self c cs)),
      ih fun d hd => h d (List.mem_cons_of_mem c hd)]

/-- A state whose current path contains a line terminator after `'#'`. -/
def c7State : RenderState :=
  ⟨⟨"acme", "api", "prod", "/a#b\nc"⟩,
   ⟨some ⟨⟨[], 0⟩⟩, false, none⟩,
   ⟨none, false, none⟩,
   TabValue.Schema⟩

/-- **C7, counterexample.** The claim "the path passed to the not-found
redirect is the current path with every suffix beginning with `'#'`
removed" fails when the path contains a line terminator: at current path
`"/a#b\nc"` the redirect is passed `"/a\nc"` (JavaScript's `.` in
`/#.*/` does not match across line terminators), while removing the
suffix beginning with `'#'` would give `"/a"`. -/
theorem c7_strip_fragment_counterexample :
    notFoundTargetEffect c7State = some ("/404", "/a\nc") ∧
    specStripFragment "/a#b\nc" = "/a" ∧
    ("/a\nc" : String) ≠ "/a" :=
  ⟨rfl, rfl, by decide⟩

/-- **C7, amended.** For every current path containing no line
terminator, the path passed to the not-found redirect is the current path
with every suffix beginning with `'#'` removed; and a path containing no
`'#'` at all is passed unchanged. -/
theorem c7_strip_fragment (st₁ st₂ : RenderState)
    (hf₁ : st₁.targetsQuery.fetching = false)
    (ht₁ : targetOf st₁ = none)
    (hlt : ∀ c ∈ st₁.router.asPath.data, isLineTerminator c = false)
    (hf₂ : st₂.targetsQuery.fetching = false)
    (ht₂ : targetOf st₂ = none)
    (hhash : ∀ c ∈ st₂.router.asPath.data, c ≠ '#') :
    notFoundTargetEffect st₁ =
      some ("/404", specStripFragment st₁.router.asPath) ∧
    notFoundTargetEffect st₂ = some ("/404", st₂.router.asPath) := by
  constructor
  · simp only [notFoundTargetEffect, hf₁, ht₁, Option.isNone_none,
      Bool.not_false, Bool.and_self, if_true]
    rw [replaceFragment, specStripFragment, replaceFragmentList_eq_spec _ hlt]
  · simp only [notFoundTargetEffect, hf₂, ht₂, Option.isNone_none,
      Bool.not_false, Bool.and_self, if_true]
    rw [replaceFragment, replaceFragmentList_eq_self _ hhash]

/-- A state whose current path carries a fragment but no line terminator. -/
def c7FragState : RenderState :=
  ⟨⟨"acme", "api", "prod", "/acme/api/prod#frag"⟩,
   ⟨some ⟨⟨[], 0⟩⟩, false, none⟩,
   ⟨none, false, none⟩,
   TabValue.Schema⟩

/-- Witness for the amended C7 at concrete paths. -/
theorem c7_strip_fragment_witness :
    notFoundTargetEffect c7FragState = some ("/404", "/acme/api/prod") ∧
    notFoundTargetEffect c1State = some ("/404", "/acme/api/prod") := by
  have h := c7_strip_fragment c7FragState c1State rfl rfl
    (by decide) rfl rfl (by decide)
  exact ⟨h.1.trans (by rfl), h.2⟩

/-- The tab list of any render output is either empty (spinner or error
branch) or the gated trigger list of the layout branch. -/
lemma tabsOf_renderTargetLayout {α : Type} (f : ChildrenProps → α)
    (st : RenderState) :
    tabsOf (renderTargetLayout f st) = [] ∨
    tabsOf (renderTargetLayout f st) =
      tabTriggers (canAccessTarget TargetAccessScope.RegistryRead (meOf st))
        (canAccessTarget TargetAccessScope.Settings (meOf st))
        st.router.organizationId st.router.projectId st.router.targetId := by
  unfold renderTargetLayout
  split
  · exact Or.inl rfl
  · split
    · exact Or.inl rfl
    · exact Or.inr rfl

/-- Without `canAccessSchema`, every remaining trigger is Settings. -/
lemma tabTriggers_no_schema (c₂ : Bool) (orgId projectId targetId : String) :
    ((tabTriggers false c₂ orgId projectId targetId).all fun t =>
      t.value != TabValue.Schema && t.value != TabValue.History &&
      t.value != TabValue.Operations && t.value != TabValue.Laboratory) =
      true := by
  cases c₂ <;> rfl

/-- Without `canAccessSettings`, no remaining trigger is Settings. -/
lemma tabTriggers_no_settings (c₁ : Bool) (orgId projectId targetId : String) :
    ((tabTriggers c₁ false orgId projectId targetId).all fun t =>
      t.value != TabValue.Settings) = true := by
  cases c₁ <;> rfl

/-- **C2.** When the actor's membership record lacks the registry-read
scope, the rendered output contains no Schema, History, Operations or
Laboratory tab trigger; independently, when the actor lacks the settings
scope, the rendered output contains no Settings tab trigger. (The access
check `canAccessTarget` is modelled from the spec, its source lying
outside the provided files.) -/
theorem c2_tab_gating {α : Type} (f : ChildrenProps → α)
    (st₁ st₂ : RenderState)
    (h₁ : canAccessTarget TargetAccessScope.RegistryRead (meOf st₁) = false)
    (h₂ : canAccessTarget TargetAccessScope.Settings (meOf st₂) = false) :
    ((tabsOf (renderTargetLayout f st₁)).all fun t =>
      t.value != TabValue.Schema && t.value != TabValue.History &&
      t.value != TabValue.Operations && t.value != TabValue.Laboratory) =
      true ∧
    ((tabsOf (renderTargetLayout f st₂)).all fun t =>
      t.value != TabValue.Settings) = true := by
  constructor
  · rcases tabsOf_renderTargetLayout f st₁ with h | h
    · rw [h]; rfl
    · rw [h, h₁]; exact tabTriggers_no_schema _ _ _ _
  · rcases tabsOf_renderTargetLayout f st₂ with h | h
    · rw [h]; rfl
    · rw [h, h₂]; exact tabTriggers_no_settings _ _ _ _

/-- A settled state whose actor holds only the settings scope. -/
def c2SettingsOnlyState : RenderState :=
  ⟨⟨"acme", "api", "prod", "/acme/api/prod"⟩,
   ⟨some ⟨⟨[⟨"prod", "Production"⟩], 1⟩⟩, false, none⟩,
   ⟨some ⟨some ⟨"Acme", some ⟨[TargetAccessScope.Read,
      TargetAccessScope.Settings]⟩⟩, some ⟨"API", "regular"⟩⟩, false, none⟩,
   TabValue.Settings⟩

/-- A settled state whose actor holds only the registry-read scope. -/
def c2RegistryOnlyState : RenderState :=
  ⟨⟨"acme", "api", "prod", "/acme/api/prod"⟩,
   ⟨some ⟨⟨[⟨"prod", "Production"⟩], 1⟩⟩, false, none⟩,
   ⟨some ⟨some ⟨"Acme", some ⟨[TargetAccessScope.Read,
      TargetAccessScope.RegistryRead]⟩⟩, some ⟨"API", "regular"⟩⟩, false,
      none⟩,
   TabValue.Schema⟩

/-- Witness for C2 at concrete membership records. -/
theorem c2_tab_gating_witness :
    ((tabsOf (renderTargetLayout (fun _ => true) c2SettingsOnlyState)).all
      fun t => t.value != TabValue.Schema && t.value != TabValue.History &&
        t.value != TabValue.Operations &&
        t.value != TabValue.Laboratory) = true ∧
    ((tabsOf (renderTargetLayout (fun _ => true) c2RegistryOnlyState)).all
      fun t => t.value != TabValue.Settings) = true :=
  c2_tab_gating (fun _ => true) c2SettingsOnlyState c2RegistryOnlyState
    rfl rfl

/-- **C4.** For every render state whose actor lacks the read scope on the
target, the render's side effects include the access redirect issued by
`useTargetAccess` (modelled from the spec), irrespective of whether the
project or target resources exist and of the fetch/error phase: the hooks
run before the component's early returns, so the check is enforced before
the main layout rendering proceeds. -/
theorem c4_read_scope_redirect (st : RenderState)
    (h : canAccessTarget TargetAccessScope.Read (meOf st) = false) :
    Effect.accessRedirect ∈ renderEffects st := by
  simp only [renderEffects, useTargetAccessRedirects, h, Bool.not_false,
    Bool.and_self, if_true]
  simp [List.mem_append]

/-- Witness for C4: an actor with no membership record at all, while both
resources exist and both queries have settled. -/
theorem c4_read_scope_redirect_witness :
    Effect.accessRedirect ∈ renderEffects
      ⟨⟨"acme", "api", "prod", "/acme/api/prod"⟩,
       ⟨some ⟨⟨[⟨"prod", "Production"⟩], 1⟩⟩, false, none⟩,
       ⟨some ⟨some ⟨"Acme", none⟩, some ⟨"API", "regular"⟩⟩, false, none⟩,
       TabValue.Schema⟩ :=
  c4_read_scope_redirect _ rfl

/-- The spec's scenario state: org `acme`, project `api`, route target
`prod`, fetched list `[prod/Production, stage/Staging]`, an actor holding
every scope, both queries settled without error. -/
def c3ScenarioState : RenderState :=
  ⟨⟨"acme", "api", "prod", "/acme/api/prod"⟩,
   ⟨some ⟨⟨[⟨"prod", "Production"⟩, ⟨"stage", "Staging"⟩], 2⟩⟩, false, none⟩,
   ⟨some ⟨some ⟨"Acme", some ⟨[TargetAccessScope.Read,
      TargetAccessScope.RegistryRead, TargetAccessScope.Settings]⟩⟩,
      some ⟨"API", "regular"⟩⟩, false, none⟩,
   TabValue.Schema⟩

/-- **C3.** For every fetched target list whose length is at most 1 (its
`total` being its length), the target-switcher dropdown is absent from the
rendered output; for every fetched list of length greater than 1 at a
settled, error-free state, the dropdown is rendered and holds exactly the
targets whose `cleanId` differs from the route's target id, each linking
to `/{org}/{project}/{thatTarget.cleanId}`; and at the spec's scenario
state the dropdown shows the single entry `Staging` linking to
`/acme/api/stage`. -/
theorem c3_dropdown {α : Type} (f : ChildrenProps → α)
    (st₁ st₂ : RenderState) (d₁ d₂ : TargetsQueryData)
    (hd₁ : st₁.targetsQuery.data = some d₁)
    (htot₁ : d₁.targets.total = d₁.targets.nodes.length)
    (hlen₁ : d₁.targets.nodes.length ≤ 1)
    (hd₂ : st₂.targetsQuery.data = some d₂)
    (htot₂ : d₂.targets.total = d₂.targets.nodes.length)
    (hlen₂ : 1 < d₂.targets.nodes.length)
    (hpf₂ : st₂.projectQuery.fetching = false)
    (htf₂ : st₂.targetsQuery.fetching = false)
    (hpe₂ : st₂.projectQuery.error = none)
    (hte₂ : st₂.targetsQuery.error = none) :
    layoutDropdownOf (renderTargetLayout f st₁) = none ∧
    layoutDropdownOf (renderTargetLayout f st₂) =
      some (d₂.targets.nodes.filterMap fun node =>
        if node.cleanId = st₂.router.targetId then none
        else some ⟨node.name, "/" ++ st₂.router.organizationId ++ "/" ++
          st₂.router.projectId ++ "/" ++ node.cleanId⟩) ∧
    layoutDropdownOf (renderTargetLayout (fun (_ : ChildrenProps) => true)
      c3ScenarioState) = some [⟨"Staging", "/acme/api/stage"⟩] := by
  refine ⟨?_, ?_, rfl⟩
  · have hdrop : dropdownOf st₁ = none := by
      simp [dropdownOf, targetsOf, hd₁, htot₁, Nat.not_lt.mpr hlen₁]
    unfold renderTargetLayout
    split
    · rfl
    · split
      · rfl
      · simpa [layoutDropdownOf] using hdrop
  · simp [renderTargetLayout, hpf₂, htf₂, hpe₂, hte₂, layoutDropdownOf,
      dropdownOf, targetsOf, hd₂, htot₂, hlen₂]

/-- Witness for C3: a one-element list on the left, the spec's scenario on
the right. -/
theorem c3_dropdown_witness :
    layoutDropdownOf (renderTargetLayout (fun (_ : ChildrenProps) => true)
      c2SettingsOnlyState) = none ∧
    layoutDropdownOf (renderTargetLayout (fun (_ : ChildrenProps) => true)
      c3ScenarioState) = some [⟨"Staging", "/acme/api/stage"⟩] := by
  have h := c3_dropdown (fun (_ : ChildrenProps) => true)
    c2SettingsOnlyState c3ScenarioState ⟨⟨[⟨"prod", "Production"⟩], 1⟩⟩
    ⟨⟨[⟨"prod", "Production"⟩, ⟨"stage", "Staging"⟩], 2⟩⟩
    rfl rfl (by decide) rfl rfl (by decide) rfl rfl rfl rfl
  exact ⟨h.1, h.2.2⟩

/-- **C6.** When the actor holds both capabilities and both queries have
settled without error, the tab list holds exactly the five triggers in
the order Schema, History, Operations, Laboratory, Settings, Schema
linking to `/{org}/{project}/{target}` and the others to that path plus
their suffix; and the single content region carries the active tab value
and the body produced by the caller-supplied `children` function. -/
theorem c6_full_tab_list {α : Type} (f : ChildrenProps → α)
    (st : RenderState)
    (h₁ : canAccessTarget TargetAccessScope.RegistryRead (meOf st) = true)
    (h₂ : canAccessTarget TargetAccessScope.Settings (meOf st) = true)
    (hpf : st.projectQuery.fetching = false)
    (htf : st.targetsQuery.fetching = false)
    (hpe : st.projectQuery.error = none)
    (hte : st.targetsQuery.error = none) :
    tabsOf (renderTargetLayout f st) =
      [⟨TabValue.Schema, "/" ++ st.router.organizationId ++ "/" ++
          st.router.projectId ++ "/" ++ st.router.targetId, "Schema"⟩,
       ⟨TabValue.History, "/" ++ st.router.organizationId ++ "/" ++
          st.router.projectId ++ "/" ++ st.router.targetId ++ "/history",
          "History"⟩,
       ⟨TabValue.Operations, "/" ++ st.router.organizationId ++ "/" ++
          st.router.projectId ++ "/" ++ st.router.targetId ++ "/operations",
          "Operations"⟩,
       ⟨TabValue.Laboratory, "/" ++ st.router.organizationId ++ "/" ++
          st.router.projectId ++ "/" ++ st.router.targetId ++ "/laboratory",
          "Laboratory"⟩,
       ⟨TabValue.Settings, "/" ++ st.router.organizationId ++ "/" ++
          st.router.projectId ++ "/" ++ st.router.targetId ++ "/settings",
          "Settings"⟩] ∧
    contentOf (renderTargetLayout f st) =
      some (st.value, f ⟨targetOf st, projectOf st, orgOf st⟩) := by
  simp [renderTargetLayout, hpf, htf, hpe, hte, tabsOf, contentOf,
    tabTriggers, h₁, h₂]

/-- Witness for C6 at the scenario state, whose actor holds every scope. -/
theorem c6_full_tab_list_witness :
    tabsOf (renderTargetLayout (fun (_ : ChildrenProps) => true)
      c3ScenarioState) =
      [⟨TabValue.Schema, "/acme/api/prod", "Schema"⟩,
       ⟨TabValue.History, "/acme/api/prod/history", "History"⟩,
       ⟨TabValue.Operations, "/acme/api/prod/operations", "Operations"⟩,
       ⟨TabValue.Laboratory, "/acme/api/prod/laboratory", "Laboratory"⟩,
       ⟨TabValue.Settings, "/acme/api/prod/settings", "Settings"⟩] ∧
    contentOf (renderTargetLayout (fun (_ : ChildrenProps) => true)
      c3ScenarioState) = some (TabValue.Schema, true) := by
  have h := c6_full_tab_list (fun (_ : ChildrenProps) => true)
    c3ScenarioState rfl rfl rfl rfl rfl rfl
  exact ⟨h.1, h.2⟩

/-- **C8.** Within the main layout (both queries settled without error),
the breadcrumb is rendered exactly when both the organization and the
project are defined; and when they are, it carries the organization's
display name linking to `/{org}` followed by the project's display name
linking to `/{org}/{project}`. -/
theorem c8_breadcrumb {α : Type} (f : ChildrenProps → α)
    (st₁ st₂ : RenderState)
    (o : OrganizationFieldsFragment) (p : ProjectFieldsFragment)
    (hpf₁ : st₁.projectQuery.fetching = false)
    (htf₁ : st₁.targetsQuery.fetching = false)
    (hpe₁ : st₁.projectQuery.error = none)
    (hte₁ : st₁.targetsQuery.error = none)
    (hpf₂ : st₂.projectQuery.fetching = false)
    (htf₂ : st₂.targetsQuery.fetching = false)
    (hpe₂ : st₂.projectQuery.error = none)
    (hte₂ : st₂.targetsQuery.error = none)
    (ho : orgOf st₂ = some o) (hp : projectOf st₂ = some p) :
    (breadcrumbOf (renderTargetLayout f st₁)).isSome =
      ((orgOf st₁).isSome && (projectOf st₁).isSome) ∧
    breadcrumbOf (renderTargetLayout f st₂) =
      some ⟨o.name, "/" ++ st₂.router.organizationId,
            p.name, "/" ++ st₂.router.organizationId ++ "/"
              ++ st₂.router.projectId⟩ := by
  constructor
  · simp only [renderTargetLayout, hpf₁, htf₁, hpe₁, hte₁]
    cases horg : orgOf st₁ <;> cases hproj : projectOf st₁ <;>
      simp [breadcrumbOf, horg, hproj]
  · simp [renderTargetLayout, hpf₂, htf₂, hpe₂, hte₂, breadcrumbOf, ho, hp]

/-- A settled state whose project entity is missing (`null`). -/
def c8NoProjectState : RenderState :=
  ⟨⟨"acme", "api", "prod", "/acme/api/prod"⟩,
   ⟨some ⟨⟨[⟨"prod", "Production"⟩], 1⟩⟩, false, none⟩,
   ⟨some ⟨some ⟨"Acme", none⟩, none⟩, false, none⟩,
   TabValue.Schema⟩

/-- Witness for C8: no breadcrumb with the project missing, the full
breadcrumb at the scenario state. -/
theorem c8_breadcrumb_witness :
    (breadcrumbOf (renderTargetLayout (fun (_ : ChildrenProps) => true)
      c8NoProjectState)).isSome = false ∧
    breadcrumbOf (renderTargetLayout (fun (_ : ChildrenProps) => true)
      c3ScenarioState) =
      some ⟨"Acme", "/acme", "API", "/acme/api"⟩ := by
  have h := c8_breadcrumb (fun (_ : ChildrenProps) => true)
    c8NoProjectState c3ScenarioState
    ⟨"Acme", some ⟨[TargetAccessScope.Read, TargetAccessScope.RegistryRead,
      TargetAccessScope.Settings]⟩⟩ ⟨"API", "regular"⟩
    rfl rfl rfl rfl rfl rfl rfl rfl rfl rfl
  exact ⟨h.1, h.2⟩

/-- **C10.** When both queries have settled without error but the resolved
target, project or organization is absent, the main layout is still
rendered and the caller-supplied `children` function is invoked with the
resolved (possibly absent) entities — `none` standing for the `undefined`
the component passes despite the TypeScript prop type declaring all three
fields non-optional. -/
theorem c10_children_receive_missing {α : Type} (f : ChildrenProps → α)
    (st : RenderState)
    (hpf : st.projectQuery.fetching = false)
    (htf : st.targetsQuery.fetching = false)
    (hpe : st.projectQuery.error = none)
    (hte : st.targetsQuery.error = none)
    (habs : targetOf st = none ∨ projectOf st = none ∨ orgOf st = none) :
    isLayoutOutput (renderTargetLayout f st) = true ∧
    contentOf (renderTargetLayout f st) =
      some (st.value, f ⟨targetOf st, projectOf st, orgOf st⟩) := by
  simp [renderTargetLayout, hpf, htf, hpe, hte, isLayoutOutput, contentOf]

/-- A settled, error-free state in which all three entities are absent. -/
def c10AllMissingState : RenderState :=
  ⟨⟨"acme", "api", "prod", "/acme/api/prod"⟩,
   ⟨some ⟨⟨[], 0⟩⟩, false, none⟩,
   ⟨some ⟨none, none⟩, false, none⟩,
   TabValue.Schema⟩

/-- Witness for C10: the layout renders and `children` receives `none`
for all three entities. -/
theorem c10_children_receive_missing_witness :
    isLayoutOutput (renderTargetLayout (fun (pr : ChildrenProps) => pr)
      c10AllMissingState) = true ∧
    contentOf (renderTargetLayout (fun (pr : ChildrenProps) => pr)
      c10AllMissingState) =
      some (TabValue.Schema, (⟨none, none, none⟩ : ChildrenProps)) :=
  c10_children_receive_missing (fun (pr : ChildrenProps) => pr)
    c10AllMissingState rfl rfl rfl rfl (Or.inl rfl)

end TargetLayoutSpec
